import Mathlib

/-!
Verification of the ucloud docker-machine driver (`src/ucloud.go`).

The driver's pure control flow is embedded directly from the Go source.
The remote helper functions (`createKeyPair`, `createUHost`, `createUNet`,
`uploadKeyPair`, `getHostDescription`, `startUHost`, `stopUHost`,
`rebootUHost`, `terminateUHost`, `killUHost`, `validateUCloudRegion`) and
the polling primitive (`mcnutils.WaitFor` composed with
`drivers.MachineInState`) are not part of `src/ucloud.go`; their outcomes
are passed in as explicit data, and where their behaviour matters it is
modelled from the specification (marked `Modelled from the spec:`).
Every operation additionally returns the list of remote calls it issued,
so that claims of the form "no remote call is made" are provable.
-/

namespace UCloud

/-- Canonical machine states of the host tool
(`github.com/docker/machine/libmachine/state.State`). The zero value is
`None`; it is what the specification's canonical enum calls `Unknown`. -/
inductive State
  | None
  | Running
  | Paused
  | Saved
  | Stopped
  | Stopping
  | Starting
  | Error
  | Timeout
  deriving DecidableEq, Repr

/-- The driver record from `src/ucloud.go` (`type Driver struct`), with the
fields of the embedded `drivers.BaseDriver` that the source reads or writes
(MachineName, ArtifactPath, IPAddress, SSHUser, SSHPort) inlined. -/
structure Driver where
  MachineName : String
  ArtifactPath : String
  IPAddress : String
  SSHUser : String
  SSHPort : Int
  PublicKey : String
  PrivateKey : String
  Region : String
  ImageId : String
  Password : String
  UhostID : String
  CPU : Int
  Memory : Int
  DiskSpace : Int
  PrivateIPOnly : Bool
  PrivateIPAddress : String
  SecurityGroupId : Int
  SecurityGroupName : String
  deriving DecidableEq, Repr

/-- Constants of `src/ucloud.go` (the `const` block; `defaultTimeout` is a
duration and is not needed here). -/
def defaultCPU : Int := 1

def defaultMemory : Int := 1024

def defaultDiskSpace : Int := 20000

def defaultRegion : String := "cn-north-03"

def defaultRetries : Nat := 10

def defaultImageId : String := "uimage-5yt2b0"

/-- `NewDriver` from `src/ucloud.go`: fields not assigned there take the Go
zero value of their type. -/
def NewDriver (hostName artifactPath : String) : Driver :=
  { MachineName := hostName
    ArtifactPath := artifactPath
    IPAddress := ""
    SSHUser := ""
    SSHPort := 0
    PublicKey := ""
    PrivateKey := ""
    Region := defaultRegion
    ImageId := ""
    Password := ""
    UhostID := ""
    CPU := defaultCPU
    Memory := defaultMemory
    DiskSpace := defaultDiskSpace
    PrivateIPOnly := false
    PrivateIPAddress := ""
    SecurityGroupId := 0
    SecurityGroupName := "" }

/-- `GetIP` from `src/ucloud.go`. -/
def GetIP (d : Driver) : Except String String :=
  if d.IPAddress = "" then Except.error "IP address is not set"
  else Except.ok d.IPAddress

/-- `GetURL` from `src/ucloud.go`: propagates a `GetIP` failure, otherwise
builds `tcp://<ip>:2376`. -/
def GetURL (d : Driver) : Except String String :=
  match GetIP d with
  | Except.error e => Except.error e
  | Except.ok ip => Except.ok ("tcp://" ++ ip ++ ":2376")

/-- The remote calls the driver can issue; every operation returns the list
of remote calls it performed. The polling step issues one
`getHostDescription` per attempt (via `MachineInState` and `GetState`). -/
inductive RemoteCall
  | createKeyPair
  | createUHost
  | getHostDescription
  | createUNet
  | uploadKeyPair
  | startUHost
  | stopUHost
  | rebootUHost
  | terminateUHost
  | killUHost
  deriving DecidableEq, Repr

/-- The result of `getHostDescription`: the Go code can see a nil pointer
(`none`) or a record with a raw provider state string. -/
structure UhostDetails where
  state : String
  deriving DecidableEq, Repr

/-- The provider-status switch inside `GetState` (`src/ucloud.go` lines
237-250); the `default` arm of the Go switch yields `state.None`. -/
def mapStatus : String → State
  | "Initializing" | "Starting" | "Rebooting" => State.Starting
  | "Running" => State.Running
  | "Stopped" => State.Stopped
  | "Stopping" => State.Stopping
  | "Install Fail" => State.Error
  | _ => State.None

/-- The provider strings that the switch in `GetState` recognizes. -/
def statusTable : List String :=
  ["Initializing", "Starting", "Rebooting", "Running", "Stopped", "Stopping", "Install Fail"]

/-- `GetState` from `src/ucloud.go`. The outcome of the remote
`getHostDescription` call is supplied as `descr`. When both guards pass the
Go code declares `var st state.State` (zero value `None`) and only runs the
switch when the description is non-nil with a non-empty state string. -/
def GetState (d : Driver) (descr : Except String (Option UhostDetails)) :
    List RemoteCall × Except String State :=
  if d.UhostID = "" ∨ d.Region = "" then
    ([], Except.error "region or uhost is empty")
  else
    match descr with
    | Except.error e =>
        ([RemoteCall.getHostDescription], Except.error ("get UHost details failed:" ++ e))
    | Except.ok details =>
        let st :=
          match details with
          | some det => if det.state ≠ "" then mapStatus det.state else State.None
          | none => State.None
        ([RemoteCall.getHostDescription], Except.ok st)

/-- The default value of a create flag in `GetCreateFlags` (the Go field
`Value` has interface type; the private-address-only flag has none). -/
inductive FlagDefault
  | str (s : String)
  | int (n : Int)
  | absent
  deriving DecidableEq, Repr

/-- One entry of `GetCreateFlags` (`mcnflag.Flag`); `EnvVar` is `""` when
the Go literal omits it. -/
structure Flag where
  Name : String
  Usage : String
  Value : FlagDefault
  EnvVar : String
  deriving DecidableEq, Repr

/-- `GetCreateFlags` from `src/ucloud.go`: the nine flags the driver
declares, in source order. -/
def GetCreateFlags : List Flag :=
  [ { Name := "ucloud-public-key", Usage := "UCloud Public Key",
      Value := FlagDefault.str "", EnvVar := "UCLOUD_PUBLIC_KEY" },
    { Name := "ucloud-private-key", Usage := "UCloud Private Key",
      Value := FlagDefault.str "", EnvVar := "UCLOUD_PRIVATE_KEY" },
    { Name := "ucloud-imageid", Usage := "UHost image id",
      Value := FlagDefault.str "", EnvVar := "" },
    { Name := "ucloud-user-password", Usage := "Password of ucloud user",
      Value := FlagDefault.str "", EnvVar := "" },
    { Name := "ucloud-region", Usage := "Region of ucloud idc",
      Value := FlagDefault.str "cn-north-03", EnvVar := "UCLOUD_REGION" },
    { Name := "ucloud-ssh-user", Usage := "SSH user",
      Value := FlagDefault.str "root", EnvVar := "" },
    { Name := "ucloud-ssh-port", Usage := "SSH port",
      Value := FlagDefault.int 22, EnvVar := "" },
    { Name := "ucloud-private-address-only", Usage := "Only use a private IP address",
      Value := FlagDefault.absent, EnvVar := "" },
    { Name := "ucloud-security-group", Usage := "UCloud security group",
      Value := FlagDefault.str "docker-machine", EnvVar := "" } ]

/-- The flag values `SetConfigFromFlags` can look up
(`drivers.DriverOptions`), one field per flag name. `sshPort` holds the
value of the declared `ucloud-ssh-port` flag; the source never reads it. -/
structure DriverOptions where
  region : String
  publicKey : String
  privateKey : String
  imageid : String
  userPassword : String
  sshUser : String
  sshPort : Int
  privateAddressOnly : Bool
  securityGroup : String
  deriving DecidableEq, Repr

/-- Modelled from the spec: `validateUCloudRegion` is defined in a file of
this repository outside src/. The spec says the region is "validated
against a known set, default `cn-north-03`"; the set's other members are
not specified, so the model keeps exactly the guaranteed member. -/
def knownRegions : List String := ["cn-north-03"]

/-- Modelled from the spec: region validation returns the region when it is
in the known set and an error otherwise. -/
def validateUCloudRegion (r : String) : Except String String :=
  if r ∈ knownRegions then Except.ok r
  else Except.error ("invalid region: " ++ r)

/-- `SetConfigFromFlags` from `src/ucloud.go`. Go mutates the receiver in
place and returns an error; the embedding returns the driver after all
assignments that happened before the return, paired with the error
(`none` on success). No remote call is made anywhere in this function. -/
def SetConfigFromFlags (d : Driver) (flags : DriverOptions) : Driver × Option String :=
  match validateUCloudRegion flags.region with
  | Except.error e => (d, some e)
  | Except.ok region =>
    let d1 := { d with Region := region }
    let d2 := { d1 with PublicKey := flags.publicKey }
    if d2.PublicKey = "" then
      (d2, some "ucloud driver requires the --ucloud-public-key option")
    else
      let d3 := { d2 with PrivateKey := flags.privateKey }
      if d3.PrivateKey = "" then
        (d3, some "ucloud driver requires the --ucloud-private-key option")
      else
        let image := if flags.imageid.length = 0 then defaultImageId else flags.imageid
        let d4 := { d3 with ImageId := image, PrivateIPOnly := flags.privateAddressOnly,
                            SecurityGroupName := flags.securityGroup }
        let sshUser := flags.sshUser.toLower
        let d5 := { d4 with SSHUser := if sshUser = "" then "root" else sshUser }
        let d6 := { d5 with Password := flags.userPassword, SSHPort := 22 }
        (d6, none)

/-- `Start` from `src/ucloud.go`: calls `startUHost(d.Region, d.UhostID)`
unconditionally (no check that an instance id is recorded) and, on failure,
drops the cause and reports the message below. The outcome of the remote
call is supplied as `res`. -/
def Start (d : Driver) (res : Except String Unit) : List RemoteCall × Option String :=
  match res with
  | Except.error _ =>
      ([RemoteCall.startUHost],
        some ("Cannot start Machine:" ++ d.MachineName ++ ", with UHost: " ++ d.UhostID ++ "."))
  | Except.ok _ => ([RemoteCall.startUHost], none)

/-- `Stop` from `src/ucloud.go`: rejects locally when no instance id is
recorded, otherwise calls `stopUHost`; its failure message says
"Cannot start Machine" (verbatim from the source) and drops the cause. -/
def Stop (d : Driver) (res : Except String Unit) : List RemoteCall × Option String :=
  if d.UhostID.length = 0 then
    ([], some ("UHost is not exist for Machine:" ++ d.MachineName))
  else
    match res with
    | Except.error _ =>
        ([RemoteCall.stopUHost],
          some ("Cannot start Machine:" ++ d.MachineName ++ ", with UHost: " ++ d.UhostID ++ "."))
    | Except.ok _ => ([RemoteCall.stopUHost], none)

/-- `Remove` from `src/ucloud.go`: calls `terminateUHost` unconditionally,
preserving the cause on failure. -/
def Remove (d : Driver) (res : Except String Unit) : List RemoteCall × Option String :=
  match res with
  | Except.error e =>
      ([RemoteCall.terminateUHost], some ("Unable to terminate the UHost instance:" ++ e))
  | Except.ok _ => ([RemoteCall.terminateUHost], none)

/-- `Restart` from `src/ucloud.go`: calls `rebootUHost` unconditionally,
preserving the cause on failure. -/
def Restart (d : Driver) (res : Except String Unit) : List RemoteCall × Option String :=
  match res with
  | Except.error e =>
      ([RemoteCall.rebootUHost], some ("Unable to restart the UHost instance:" ++ e))
  | Except.ok _ => ([RemoteCall.rebootUHost], none)

/-- `Kill` from `src/ucloud.go`: calls `killUHost` unconditionally,
preserving the cause on failure. -/
def Kill (d : Driver) (res : Except String Unit) : List RemoteCall × Option String :=
  match res with
  | Except.error e =>
      ([RemoteCall.killUHost], some ("Unable to kill the UHost instance:" ++ e))
  | Except.ok _ => ([RemoteCall.killUHost], none)

/-- Modelled from the spec: the textual rendering of a canonical status,
used when the timeout error reports the last observed status. -/
def State.str : State → String
  | State.None => "None"
  | State.Running => "Running"
  | State.Paused => "Paused"
  | State.Saved => "Saved"
  | State.Stopped => "Stopped"
  | State.Stopping => "Stopping"
  | State.Starting => "Starting"
  | State.Error => "Error"
  | State.Timeout => "Timeout"

/-- Modelled from the spec: the polling primitive's timeout error carries
the last observed canonical status (`none` only when zero attempts were
allowed, so nothing was observed). -/
inductive PollError
  | timeout (lastStatus : Option State)
  deriving DecidableEq, Repr

/-- Modelled from the spec: how the timeout error prints, naming the last
observed status. -/
def PollError.render : PollError → String
  | PollError.timeout Option.none => "provisioning timeout"
  | PollError.timeout (some s) => "provisioning timeout, last observed status: " ++ s.str

/-- Modelled from the spec: the polling primitive (`mcnutils.WaitFor`
composed with `drivers.MachineInState(d, state.Running)`, both outside this
repository's src/). `statuses i` is the canonical status seen by attempt
`i`; the loop runs up to `fuel` more attempts starting at attempt `i`,
succeeds at the first `Running`, and when exhausted reports a timeout
carrying the last observed status. Returns the number of attempts used. -/
def waitForAux (statuses : Nat → State) : Nat → Nat → Option State → Nat × Except PollError Unit
  | i, 0, last => (i, Except.error (PollError.timeout last))
  | i, fuel + 1, _ =>
    if statuses i = State.Running then (i + 1, Except.ok ())
    else waitForAux statuses (i + 1) fuel (some (statuses i))

/-- Modelled from the spec: the bounded poll, starting at attempt 0 with
nothing yet observed. -/
def waitFor (statuses : Nat → State) (maxAttempts : Nat) : Nat × Except PollError Unit :=
  waitForAux statuses 0 maxAttempts none

/-- Modelled from the spec: the outcomes of the remote operations `Create`
invokes. The bodies of `createKeyPair`, `createUHost`, `createUNet` and
`uploadKeyPair` live in files of this repository outside src/; each is a
remote call that either succeeds or fails with a cause, so its outcome is
supplied as data. `describeStates i` is the canonical status the poll
observes on attempt `i`, and `maxAttempts` is the poll bound (spec default
10, tunable). -/
structure RemoteEnv where
  createKeyPairRes : Except String Unit
  createUHostRes : Except String Unit
  describeStates : Nat → State
  maxAttempts : Nat
  createUNetRes : Except String Unit
  uploadKeyPairRes : Except String Unit

/-- The outcome of `Create`, one constructor per `return` in the Go source
(`src/ucloud.go` lines 168-206), carrying the data each message uses. -/
inductive CreateResult
  | ok
  | errPassword
  | errKeyPair (cause : String)
  | errUHost (cause : String)
  | errWait (p : PollError)
  | errUNet (cause : String)
  | errUpload (cause : String)
  deriving DecidableEq, Repr

/-- The exact error message each `Create` outcome produces (`fmt.Errorf`
formats in the source; `%s` on the poll error uses its rendering). -/
def CreateResult.message : CreateResult → Option String
  | CreateResult.ok => none
  | CreateResult.errPassword => some "ucloud driver requires --ucloud-user-password options."
  | CreateResult.errKeyPair e => some ("unable to create key pair: " ++ e)
  | CreateResult.errUHost e => some ("create UHost failed:" ++ e)
  | CreateResult.errWait p => some ("wait for machine running failed: " ++ p.render)
  | CreateResult.errUNet e => some ("create networks failed:" ++ e)
  | CreateResult.errUpload e => some ("upload keypair failed:" ++ e)

/-- `Create` from `src/ucloud.go`: password check, then key-pair creation,
instance creation, bounded poll for `Running`, network creation and
key-pair upload, aborting at the first failure. The returned list records
every remote call issued, in order (one `getHostDescription` per poll
attempt). -/
def Create (d : Driver) (env : RemoteEnv) : List RemoteCall × CreateResult :=
  if d.Password = "" then ([], CreateResult.errPassword)
  else
    match env.createKeyPairRes with
    | Except.error e => ([RemoteCall.createKeyPair], CreateResult.errKeyPair e)
    | Except.ok _ =>
      match env.createUHostRes with
      | Except.error e =>
          ([RemoteCall.createKeyPair, RemoteCall.createUHost], CreateResult.errUHost e)
      | Except.ok _ =>
        match waitFor env.describeStates env.maxAttempts with
        | (n, Except.error p) =>
            ([RemoteCall.createKeyPair, RemoteCall.createUHost] ++
              List.replicate n RemoteCall.getHostDescription, CreateResult.errWait p)
        | (n, Except.ok _) =>
          let pre := [RemoteCall.createKeyPair, RemoteCall.createUHost] ++
            List.replicate n RemoteCall.getHostDescription
          match env.createUNetRes with
          | Except.error e => (pre ++ [RemoteCall.createUNet], CreateResult.errUNet e)
          | Except.ok _ =>
            match env.uploadKeyPairRes with
            | Except.error e =>
                (pre ++ [RemoteCall.createUNet, RemoteCall.uploadKeyPair],
                  CreateResult.errUpload e)
            | Except.ok _ =>
                (pre ++ [RemoteCall.createUNet, RemoteCall.uploadKeyPair], CreateResult.ok)

/-- C1: the status mapping performed by `GetState` sends Initializing,
Starting and Rebooting to `Starting`, Running to `Running`, Stopped to
`Stopped`, Stopping to `Stopping` and Install Fail to `Error`, and sends
every string outside the table to the zero status `state.None` — the
status the specification's canonical enum calls `Unknown`. Moreover
`GetState`, when the remote description succeeds, returns exactly this
mapping of the raw state string. -/
theorem c1_status_mapping :
    mapStatus "Initializing" = State.Starting ∧
    mapStatus "Starting" = State.Starting ∧
    mapStatus "Rebooting" = State.Starting ∧
    mapStatus "Running" = State.Running ∧
    mapStatus "Stopped" = State.Stopped ∧
    mapStatus "Stopping" = State.Stopping ∧
    mapStatus "Install Fail" = State.Error ∧
    (∀ s : String, s ∉ statusTable → mapStatus s = State.None) ∧
    (∀ (d : Driver) (det : UhostDetails), d.UhostID ≠ "" → d.Region ≠ "" →
      GetState d (Except.ok (some det)) =
        ([RemoteCall.getHostDescription], Except.ok (mapStatus det.state))) := by
  refine ⟨rfl, rfl, rfl, rfl, rfl, rfl, rfl, ?_, ?_⟩
  · intro s hs
    simp only [statusTable, List.mem_cons, List.not_mem_nil, or_false] at hs
    push_neg at hs
    obtain ⟨h1, h2, h3, h4, h5, h6, h7⟩ := hs
    unfold mapStatus
    split <;> simp_all
  · intro d det h1 h2
    unfold GetState
    rw [if_neg (by simp [h1, h2])]
    by_cases hs : det.state = ""
    · simp only [hs]
      norm_num
      rfl
    · simp [hs]

/-- Witness for C1 at concrete inputs: an unrecognized string maps to
`state.None`, and `GetState` on a driver with id and region set maps a
"Running" description to `Running`. -/
theorem c1_witness :
    mapStatus "definitely not a provider status" = State.None ∧
    GetState { NewDriver "m" "p" with UhostID := "uhost-1" }
        (Except.ok (some { state := "Running" })) =
      ([RemoteCall.getHostDescription], Except.ok State.Running) := by
  constructor
  · exact c1_status_mapping.2.2.2.2.2.2.2.1 "definitely not a provider status" (by decide)
  · have h := c1_status_mapping.2.2.2.2.2.2.2.2
      { NewDriver "m" "p" with UhostID := "uhost-1" } { state := "Running" }
      (by decide) (by decide)
    simpa using h

/-- C9: `GetIP` fails exactly when the stored IP address is unset and
otherwise returns it unchanged; `GetURL` fails exactly when `GetIP` does
and otherwise returns `tcp://<ip>:2376` built from the stored address. -/
theorem c9_getip_geturl (d : Driver) :
    (d.IPAddress = "" →
      GetIP d = Except.error "IP address is not set" ∧
      GetURL d = Except.error "IP address is not set") ∧
    (d.IPAddress ≠ "" →
      GetIP d = Except.ok d.IPAddress ∧
      GetURL d = Except.ok ("tcp://" ++ d.IPAddress ++ ":2376")) := by
  constructor <;> intro h <;> constructor <;> simp [GetIP, GetURL, h]

/-- Witness for C9 at concrete inputs: a fresh driver has no IP and both
getters fail; after storing 1.2.3.4 both getters succeed. -/
theorem c9_witness :
    GetURL (NewDriver "m" "p") = Except.error "IP address is not set" ∧
    GetURL { NewDriver "m" "p" with IPAddress := "1.2.3.4" } =
      Except.ok "tcp://1.2.3.4:2376" := by
  constructor
  · exact ((c9_getip_geturl (NewDriver "m" "p")).1 rfl).2
  · have h :=
      ((c9_getip_geturl { NewDriver "m" "p" with IPAddress := "1.2.3.4" }).2 (by decide)).2
    rw [h]
    rfl

/-- C6: `Stop` on a driver whose recorded instance id is empty returns the
missing-instance error ("UHost is not exist for Machine:<name>") and issues
no remote call at all. -/
theorem c6_stop_missing_instance (d : Driver) (res : Except String Unit)
    (h : d.UhostID = "") :
    Stop d res = ([], some ("UHost is not exist for Machine:" ++ d.MachineName)) := by
  simp [Stop, h]

/-- Witness for C6: a fresh driver has no instance id recorded; `Stop`
rejects locally even though the remote call would have succeeded. -/
theorem c6_witness :
    (NewDriver "mach" "p").UhostID = "" ∧
    Stop (NewDriver "mach" "p") (Except.ok ()) =
      ([], some "UHost is not exist for Machine:mach") := by
  refine ⟨rfl, ?_⟩
  have h := c6_stop_missing_instance (NewDriver "mach" "p") (Except.ok ()) rfl
  rw [h]
  rfl

/-- C10: the `ucloud-ssh-port` flag is declared in `GetCreateFlags`, but
`SetConfigFromFlags` never reads it: its result is invariant under any
change of the supplied port value, and after every successful call the
driver's SSHPort equals 22. -/
theorem c10_sshport_fixed :
    ("ucloud-ssh-port" ∈ GetCreateFlags.map Flag.Name) ∧
    (∀ (d : Driver) (flags : DriverOptions) (p : Int),
      SetConfigFromFlags d { flags with sshPort := p } = SetConfigFromFlags d flags) ∧
    (∀ (d : Driver) (flags : DriverOptions),
      (SetConfigFromFlags d flags).2 = none → (SetConfigFromFlags d flags).1.SSHPort = 22) := by
  refine ⟨by decide, ?_, ?_⟩
  · intro d flags p
    rfl
  · intro d flags
    unfold SetConfigFromFlags
    dsimp only
    split
    · intro h
      simp at h
    · split
      · intro h
        simp at h
      · split
        · intro h
          simp at h
        · intro h
          rfl

/-- A complete, valid set of flag values used by witnesses. -/
def exFlags : DriverOptions :=
  { region := "cn-north-03", publicKey := "pub", privateKey := "priv", imageid := "",
    userPassword := "pw", sshUser := "Root", sshPort := 2022, privateAddressOnly := false,
    securityGroup := "docker-machine" }

/-- Witness for C10 at a concrete input: with the ssh-port flag set to 2022
the configuration succeeds and the driver's SSHPort is still 22. -/
theorem c10_witness :
    (SetConfigFromFlags (NewDriver "m" "p") exFlags).1.SSHPort = 22 := by
  exact c10_sshport_fixed.2.2 (NewDriver "m" "p") exFlags (by decide)

/-- A driver with a password and an instance id, used by witnesses. -/
def exDriver : Driver := { NewDriver "m" "p" with Password := "pw", UhostID := "uhost-1" }

/-- A remote environment in which every operation succeeds and the first
poll attempt already sees Running. -/
def envAllOk : RemoteEnv :=
  { createKeyPairRes := Except.ok ()
    createUHostRes := Except.ok ()
    describeStates := fun _ => State.Running
    maxAttempts := defaultRetries
    createUNetRes := Except.ok ()
    uploadKeyPairRes := Except.ok () }

/-- If every attempt within the fuel sees a non-Running status, the poll
loop uses all its fuel and times out carrying the status seen last. -/
theorem waitForAux_exhaust (statuses : Nat → State) :
    ∀ (fuel i : Nat) (last : Option State),
      (∀ j : Nat, j < fuel → statuses (i + j) ≠ State.Running) → 0 < fuel →
      waitForAux statuses i fuel last =
        (i + fuel, Except.error (PollError.timeout (some (statuses (i + fuel - 1))))) := by
  intro fuel
  induction fuel with
  | zero =>
    intro i last _ hpos
    exact absurd hpos (by omega)
  | succ f ih =>
    intro i last h _
    have h0 : statuses i ≠ State.Running := by simpa using h 0 (Nat.succ_pos f)
    unfold waitForAux
    rw [if_neg h0]
    rcases Nat.eq_zero_or_pos f with hf | hf
    · subst hf
      unfold waitForAux
      simp
    · have hrec := ih (i + 1) (some (statuses i)) (fun j hj => by
        have hj1 := h (j + 1) (by omega)
        have e : i + (j + 1) = i + 1 + j := by omega
        rwa [e] at hj1) hf
      rw [hrec]
      have e : i + 1 + f = i + (f + 1) := by omega
      rw [e]

/-- The bounded poll times out after exactly its attempt budget when no
attempt sees Running, reporting the last observed status. -/
theorem waitFor_exhaust (statuses : Nat → State) (m : Nat)
    (h : ∀ j : Nat, j < m → statuses j ≠ State.Running) (hm : 0 < m) :
    waitFor statuses m =
      (m, Except.error (PollError.timeout (some (statuses (m - 1))))) := by
  have hall : ∀ j : Nat, j < m → statuses (0 + j) ≠ State.Running := by
    intro j hj
    simpa using h j hj
  have := waitForAux_exhaust statuses m 0 none hall hm
  simpa [waitFor] using this

/-- If the very first poll attempt sees Running, the poll succeeds using
one attempt. -/
theorem waitFor_first_running (statuses : Nat → State) (m : Nat)
    (h0 : statuses 0 = State.Running) (hm : 0 < m) :
    waitFor statuses m = (1, Except.ok ()) := by
  cases m with
  | zero => exact absurd hm (by omega)
  | succ f =>
    unfold waitFor waitForAux
    rw [if_pos h0]

/-- Every remote call `Create` ever issues is one of the five provisioning
calls; in particular it never issues a rollback call. -/
theorem create_calls_shape (d : Driver) (env : RemoteEnv) :
    ∀ x, x ∈ (Create d env).1 →
      x ∈ [RemoteCall.createKeyPair, RemoteCall.createUHost, RemoteCall.getHostDescription,
           RemoteCall.createUNet, RemoteCall.uploadKeyPair] := by
  intro x hx
  unfold Create at hx
  split at hx
  · simp at hx
  · split at hx
    · simp only [List.mem_cons, List.not_mem_nil, or_false] at hx
      simp [hx]
    · split at hx
      · simp only [List.mem_cons, List.not_mem_nil, or_false] at hx
        rcases hx with h | h <;> simp [h]
      · split at hx
        · simp only [List.mem_append, List.mem_cons, List.not_mem_nil, or_false,
            List.mem_replicate] at hx
          rcases hx with (h | h) | ⟨_, h⟩ <;> simp [h]
        · dsimp only at hx
          split at hx
          · simp only [List.mem_append, List.mem_cons, List.not_mem_nil, or_false,
              List.mem_replicate] at hx
            rcases hx with ((h | h) | ⟨_, h⟩) | h <;> simp [h]
          · split at hx <;>
            · simp only [List.mem_append, List.mem_cons, List.not_mem_nil, or_false,
                List.mem_replicate] at hx
              rcases hx with ((h | h) | ⟨_, h⟩) | (h | h) <;> simp [h]

/-- C3: `Create` with an empty password returns the configuration error
"ucloud driver requires --ucloud-user-password options." and issues zero
remote calls (no key-pair creation, no instance creation, no polling). -/
theorem c3_create_empty_password (d : Driver) (env : RemoteEnv)
    (h : d.Password = "") :
    Create d env = ([], CreateResult.errPassword) ∧
    (Create d env).2.message =
      some "ucloud driver requires --ucloud-user-password options." := by
  have heq : Create d env = ([], CreateResult.errPassword) := by simp [Create, h]
  refine ⟨heq, ?_⟩
  rw [heq]
  rfl

/-- Witness for C3: a fresh driver has an empty password; even in an
environment where every remote operation would succeed, `Create` makes no
call and fails. -/
theorem c3_witness :
    Create (NewDriver "m" "p") envAllOk = ([], CreateResult.errPassword) :=
  (c3_create_empty_password (NewDriver "m" "p") envAllOk rfl).1

/-- C2: `Create` performs key-pair creation, instance creation, the bounded
poll, network creation and key-pair upload in exactly that order; at the
first failing step it returns at once with that step's wrapping message
around the underlying cause, issuing none of the later calls; and its call
trace never contains a rollback call (terminate, stop or kill). -/
theorem c2_create_step_order :
    (∀ (d : Driver) (env : RemoteEnv) (e : String), d.Password ≠ "" →
      env.createKeyPairRes = Except.error e →
      Create d env = ([RemoteCall.createKeyPair], CreateResult.errKeyPair e) ∧
      (Create d env).2.message = some ("unable to create key pair: " ++ e)) ∧
    (∀ (d : Driver) (env : RemoteEnv) (e : String), d.Password ≠ "" →
      env.createKeyPairRes = Except.ok () →
      env.createUHostRes = Except.error e →
      Create d env =
        ([RemoteCall.createKeyPair, RemoteCall.createUHost], CreateResult.errUHost e) ∧
      (Create d env).2.message = some ("create UHost failed:" ++ e)) ∧
    (∀ (d : Driver) (env : RemoteEnv) (n : Nat) (p : PollError), d.Password ≠ "" →
      env.createKeyPairRes = Except.ok () →
      env.createUHostRes = Except.ok () →
      waitFor env.describeStates env.maxAttempts = (n, Except.error p) →
      Create d env =
        ([RemoteCall.createKeyPair, RemoteCall.createUHost] ++
          List.replicate n RemoteCall.getHostDescription, CreateResult.errWait p) ∧
      (Create d env).2.message =
        some ("wait for machine running failed: " ++ p.render)) ∧
    (∀ (d : Driver) (env : RemoteEnv) (n : Nat) (e : String), d.Password ≠ "" →
      env.createKeyPairRes = Except.ok () →
      env.createUHostRes = Except.ok () →
      waitFor env.describeStates env.maxAttempts = (n, Except.ok ()) →
      env.createUNetRes = Except.error e →
      Create d env =
        ([RemoteCall.createKeyPair, RemoteCall.createUHost] ++
          List.replicate n RemoteCall.getHostDescription ++ [RemoteCall.createUNet],
         CreateResult.errUNet e) ∧
      (Create d env).2.message = some ("create networks failed:" ++ e)) ∧
    (∀ (d : Driver) (env : RemoteEnv) (n : Nat) (e : String), d.Password ≠ "" →
      env.createKeyPairRes = Except.ok () →
      env.createUHostRes = Except.ok () →
      waitFor env.describeStates env.maxAttempts = (n, Except.ok ()) →
      env.createUNetRes = Except.ok () →
      env.uploadKeyPairRes = Except.error e →
      Create d env =
        ([RemoteCall.createKeyPair, RemoteCall.createUHost] ++
          List.replicate n RemoteCall.getHostDescription ++
          [RemoteCall.createUNet, RemoteCall.uploadKeyPair],
         CreateResult.errUpload e) ∧
      (Create d env).2.message = some ("upload keypair failed:" ++ e)) ∧
    (∀ (d : Driver) (env : RemoteEnv) (n : Nat), d.Password ≠ "" →
      env.createKeyPairRes = Except.ok () →
      env.createUHostRes = Except.ok () →
      waitFor env.describeStates env.maxAttempts = (n, Except.ok ()) →
      env.createUNetRes = Except.ok () →
      env.uploadKeyPairRes = Except.ok () →
      Create d env =
        ([RemoteCall.createKeyPair, RemoteCall.createUHost] ++
          List.replicate n RemoteCall.getHostDescription ++
          [RemoteCall.createUNet, RemoteCall.uploadKeyPair],
         CreateResult.ok)) ∧
    (∀ (d : Driver) (env : RemoteEnv),
      RemoteCall.terminateUHost ∉ (Create d env).1 ∧
      RemoteCall.stopUHost ∉ (Create d env).1 ∧
      RemoteCall.killUHost ∉ (Create d env).1) := by
  refine ⟨?_, ?_, ?_, ?_, ?_, ?_, ?_⟩
  · intro d env e hp h1
    have heq : Create d env = ([RemoteCall.createKeyPair], CreateResult.errKeyPair e) := by
      simp [Create, hp, h1]
    exact ⟨heq, by rw [heq]; rfl⟩
  · intro d env e hp h1 h2
    have heq : Create d env =
        ([RemoteCall.createKeyPair, RemoteCall.createUHost], CreateResult.errUHost e) := by
      simp [Create, hp, h1, h2]
    exact ⟨heq, by rw [heq]; rfl⟩
  · intro d env n p hp h1 h2 hw
    have heq : Create d env =
        ([RemoteCall.createKeyPair, RemoteCall.createUHost] ++
          List.replicate n RemoteCall.getHostDescription, CreateResult.errWait p) := by
      simp [Create, hp, h1, h2, hw]
    exact ⟨heq, by rw [heq]; rfl⟩
  · intro d env n e hp h1 h2 hw h4
    have heq : Create d env =
        ([RemoteCall.createKeyPair, RemoteCall.createUHost] ++
          List.replicate n RemoteCall.getHostDescription ++ [RemoteCall.createUNet],
         CreateResult.errUNet e) := by
      simp [Create, hp, h1, h2, hw, h4]
    exact ⟨heq, by rw [heq]; rfl⟩
  · intro d env n e hp h1 h2 hw h4 h5
    have heq : Create d env =
        ([RemoteCall.createKeyPair, RemoteCall.createUHost] ++
          List.replicate n RemoteCall.getHostDescription ++
          [RemoteCall.createUNet, RemoteCall.uploadKeyPair], CreateResult.errUpload e) := by
      simp [Create, hp, h1, h2, hw, h4, h5]
    exact ⟨heq, by rw [heq]; rfl⟩
  · intro d env n hp h1 h2 hw h4 h5
    simp [Create, hp, h1, h2, hw, h4, h5]
  · intro d env
    refine ⟨?_, ?_, ?_⟩ <;> intro hmem <;>
      have := create_calls_shape d env _ hmem <;> simp at this

/-- Witness for C2 at concrete inputs: with a valid password, key pair and
instance succeeding and the first poll seeing Running, a network-creation
failure aborts `Create` right after the network call, wrapped with the
step's message, with no upload call and no rollback call. -/
theorem c2_witness :
    Create exDriver
        { createKeyPairRes := Except.ok ()
          createUHostRes := Except.ok ()
          describeStates := fun _ => State.Running
          maxAttempts := 10
          createUNetRes := Except.error "boom"
          uploadKeyPairRes := Except.ok () } =
      ([RemoteCall.createKeyPair, RemoteCall.createUHost] ++
        List.replicate 1 RemoteCall.getHostDescription ++ [RemoteCall.createUNet],
       CreateResult.errUNet "boom") := by
  exact (c2_create_step_order.2.2.2.1 exDriver
    { createKeyPairRes := Except.ok ()
      createUHostRes := Except.ok ()
      describeStates := fun _ => State.Running
      maxAttempts := 10
      createUNetRes := Except.error "boom"
      uploadKeyPairRes := Except.ok () }
    1 "boom" (by decide) rfl rfl
    (waitFor_first_running (fun _ => State.Running) 10 rfl (by decide)) rfl).1

/-- C5: when the bounded poll exhausts its attempt budget without observing
Running, `Create` returns the wait step's error wrapping the poll timeout,
which carries the last observed status; that error is a different
constructor from the hard provider errors of the other remote steps, and
its message names the last observed status. -/
theorem c5_poll_timeout (d : Driver) (env : RemoteEnv)
    (hp : d.Password ≠ "")
    (h1 : env.createKeyPairRes = Except.ok ())
    (h2 : env.createUHostRes = Except.ok ())
    (hall : ∀ j : Nat, j < env.maxAttempts → env.describeStates j ≠ State.Running)
    (hm : 0 < env.maxAttempts) :
    Create d env =
      ([RemoteCall.createKeyPair, RemoteCall.createUHost] ++
        List.replicate env.maxAttempts RemoteCall.getHostDescription,
       CreateResult.errWait
         (PollError.timeout (some (env.describeStates (env.maxAttempts - 1))))) ∧
    (∀ c : String,
      CreateResult.errWait
          (PollError.timeout (some (env.describeStates (env.maxAttempts - 1)))) ≠
        CreateResult.errUHost c ∧
      CreateResult.errWait
          (PollError.timeout (some (env.describeStates (env.maxAttempts - 1)))) ≠
        CreateResult.errUNet c ∧
      CreateResult.errWait
          (PollError.timeout (some (env.describeStates (env.maxAttempts - 1)))) ≠
        CreateResult.errKeyPair c) ∧
    (Create d env).2.message =
      some ("wait for machine running failed: provisioning timeout, last observed status: " ++
        (env.describeStates (env.maxAttempts - 1)).str) := by
  have hw := waitFor_exhaust env.describeStates env.maxAttempts hall hm
  have heq : Create d env =
      ([RemoteCall.createKeyPair, RemoteCall.createUHost] ++
        List.replicate env.maxAttempts RemoteCall.getHostDescription,
       CreateResult.errWait
         (PollError.timeout (some (env.describeStates (env.maxAttempts - 1))))) := by
    simp [Create, hp, h1, h2, hw]
  refine ⟨heq, ?_, ?_⟩
  · intro c
    refine ⟨?_, ?_, ?_⟩ <;> intro hcon <;> cases hcon
  · rw [heq]
    rfl

/-- Witness for C5: with three attempts all observing Starting, `Create`
polls three times and reports the timeout carrying Starting. -/
theorem c5_witness :
    Create exDriver
        { createKeyPairRes := Except.ok ()
          createUHostRes := Except.ok ()
          describeStates := fun _ => State.Starting
          maxAttempts := 3
          createUNetRes := Except.ok ()
          uploadKeyPairRes := Except.ok () } =
      ([RemoteCall.createKeyPair, RemoteCall.createUHost] ++
        List.replicate 3 RemoteCall.getHostDescription,
       CreateResult.errWait (PollError.timeout (some State.Starting))) := by
  exact (c5_poll_timeout exDriver
    { createKeyPairRes := Except.ok ()
      createUHostRes := Except.ok ()
      describeStates := fun _ => State.Starting
      maxAttempts := 3
      createUNetRes := Except.ok ()
      uploadKeyPairRes := Except.ok () }
    (by decide) rfl rfl (fun j _ hcon => State.noConfusion hcon) (by decide)).1

/-- A string has length zero exactly when it is empty (Go's
`len(s) == 0` versus `s == ""`). -/
theorem string_length_zero_iff (s : String) : s.length = 0 ↔ s = "" := by
  rw [String.ext_iff]
  cases s with
  | mk data => simp

/-- C4 counterexample: a driver whose public and private credentials are
both empty but whose password is set. The claim requires `Create` to
return a configuration error without issuing any remote call for every
configuration with empty public or private key; instead `Create` issues
all five provisioning calls and succeeds. -/
theorem c4_counterexample :
    ({ NewDriver "m" "p" with Password := "pw" } : Driver).PublicKey = "" ∧
    ({ NewDriver "m" "p" with Password := "pw" } : Driver).PrivateKey = "" ∧
    Create { NewDriver "m" "p" with Password := "pw" } envAllOk =
      ([RemoteCall.createKeyPair, RemoteCall.createUHost, RemoteCall.getHostDescription,
        RemoteCall.createUNet, RemoteCall.uploadKeyPair], CreateResult.ok) :=
  ⟨rfl, rfl, rfl⟩

/-- C4 amended: credential validation happens in `SetConfigFromFlags`, not
in `Create`. With a valid region, `SetConfigFromFlags` fails with the
public-key configuration error when the public key is empty and with the
private-key error when only the private key is empty, issuing no remote
call (it performs none anywhere); `Create` itself validates only the
password, failing before any remote call exactly when it is empty. -/
theorem c4_amended :
    (∀ (d : Driver) (flags : DriverOptions) (r : String),
      validateUCloudRegion flags.region = Except.ok r → flags.publicKey = "" →
      (SetConfigFromFlags d flags).2 =
        some "ucloud driver requires the --ucloud-public-key option") ∧
    (∀ (d : Driver) (flags : DriverOptions) (r : String),
      validateUCloudRegion flags.region = Except.ok r → flags.publicKey ≠ "" →
      flags.privateKey = "" →
      (SetConfigFromFlags d flags).2 =
        some "ucloud driver requires the --ucloud-private-key option") ∧
    (∀ (d : Driver) (env : RemoteEnv), d.Password = "" →
      Create d env = ([], CreateResult.errPassword)) := by
  refine ⟨?_, ?_, ?_⟩
  · intro d flags r hval hpub
    unfold SetConfigFromFlags
    rw [hval]
    dsimp only
    rw [if_pos hpub]
  · intro d flags r hval hpub hpriv
    unfold SetConfigFromFlags
    rw [hval]
    dsimp only
    rw [if_neg hpub, if_pos hpriv]
  · intro d env h
    simp [Create, h]

/-- Witness for the amended C4: concrete flag values with a valid region
and an empty public key are rejected with the public-key error. -/
theorem c4_witness :
    (SetConfigFromFlags (NewDriver "m" "p") { exFlags with publicKey := "" }).2 =
      some "ucloud driver requires the --ucloud-public-key option" := by
  exact c4_amended.1 (NewDriver "m" "p") { exFlags with publicKey := "" } "cn-north-03"
    (by simp [validateUCloudRegion, knownRegions, exFlags]) rfl

/-- C7 counterexample: `Start` on a driver with no recorded instance id
does not fail before the network call: it issues the remote start call,
and even reports success when the remote call succeeds. -/
theorem c7_counterexample :
    (NewDriver "m" "p").UhostID = "" ∧
    Start (NewDriver "m" "p") (Except.ok ()) = ([RemoteCall.startUHost], none) :=
  ⟨rfl, rfl⟩

/-- C7 amended: among the lifecycle operations only `Stop` and `GetState`
fail before any remote call when no instance id is recorded; `Start`,
`Restart`, `Kill` and `Remove` issue their remote call unconditionally,
whether or not an instance id is recorded. -/
theorem c7_amended :
    (∀ (d : Driver) (res : Except String Unit), d.UhostID = "" →
      (Stop d res).1 = [] ∧ (Stop d res).2 ≠ none) ∧
    (∀ (d : Driver) (descr : Except String (Option UhostDetails)), d.UhostID = "" →
      (GetState d descr).1 = [] ∧
      (GetState d descr).2 = Except.error "region or uhost is empty") ∧
    (∀ (d : Driver) (res : Except String Unit),
      (Start d res).1 = [RemoteCall.startUHost]) ∧
    (∀ (d : Driver) (res : Except String Unit),
      (Restart d res).1 = [RemoteCall.rebootUHost]) ∧
    (∀ (d : Driver) (res : Except String Unit),
      (Kill d res).1 = [RemoteCall.killUHost]) ∧
    (∀ (d : Driver) (res : Except String Unit),
      (Remove d res).1 = [RemoteCall.terminateUHost]) := by
  refine ⟨?_, ?_, ?_, ?_, ?_, ?_⟩
  · intro d res h
    constructor <;> simp [Stop, h]
  · intro d descr h
    constructor <;> simp [GetState, h]
  all_goals intro d res
  all_goals cases res <;> rfl

/-- Witness for the amended C7: on a fresh driver with no instance id,
`Stop` makes no remote call while `Start` still issues its remote call. -/
theorem c7_witness :
    (Stop (NewDriver "w" "p") (Except.ok ())).1 = [] ∧
    (Start (NewDriver "w" "p") (Except.ok ())).1 = [RemoteCall.startUHost] :=
  ⟨(c7_amended.1 (NewDriver "w" "p") (Except.ok ()) rfl).1,
   c7_amended.2.2.1 (NewDriver "w" "p") (Except.ok ())⟩

/-- C8 counterexample: `Stop` on instance uhost-1 of machine m with a
failing remote call whose cause is "boom" produces
"Cannot start Machine:m, with UHost: uhost-1." — the verb names the wrong
operation and the cause is dropped — not the claimed uniform shape
"cannot stop instance uhost-1: boom". -/
theorem c8_counterexample :
    (Stop exDriver (Except.error "boom")).2 =
      some "Cannot start Machine:m, with UHost: uhost-1." ∧
    (Stop exDriver (Except.error "boom")).2 ≠
      some "cannot stop instance uhost-1: boom" := by
  constructor
  · rfl
  · intro hcon
    rw [show (Stop exDriver (Except.error "boom")).2 =
      some "Cannot start Machine:m, with UHost: uhost-1." from rfl] at hcon
    simp at hcon

/-- C8 amended: the failure translations are not uniform. `Start` and
`Stop` (the latter when an instance id is recorded) report
"Cannot start Machine:<name>, with UHost: <id>." — both with the verb
"start", dropping the underlying cause — while `Restart`, `Remove` and
`Kill` report "Unable to restart/terminate/kill the UHost
instance:<cause>", naming their own verb and preserving the cause. -/
theorem c8_amended :
    (∀ (d : Driver) (e : String),
      (Start d (Except.error e)).2 =
        some ("Cannot start Machine:" ++ d.MachineName ++ ", with UHost: " ++
          d.UhostID ++ ".")) ∧
    (∀ (d : Driver) (e : String), d.UhostID ≠ "" →
      (Stop d (Except.error e)).2 =
        some ("Cannot start Machine:" ++ d.MachineName ++ ", with UHost: " ++
          d.UhostID ++ ".")) ∧
    (∀ (d : Driver) (e : String),
      (Restart d (Except.error e)).2 =
        some ("Unable to restart the UHost instance:" ++ e)) ∧
    (∀ (d : Driver) (e : String),
      (Remove d (Except.error e)).2 =
        some ("Unable to terminate the UHost instance:" ++ e)) ∧
    (∀ (d : Driver) (e : String),
      (Kill d (Except.error e)).2 =
        some ("Unable to kill the UHost instance:" ++ e)) := by
  refine ⟨fun d e => rfl, ?_, fun d e => rfl, fun d e => rfl, fun d e => rfl⟩
  intro d e h
  have hlen : ¬ d.UhostID.length = 0 := by
    intro hl
    exact h ((string_length_zero_iff d.UhostID).mp hl)
  simp [Stop, hlen]

/-- Witness for the amended C8: `Stop` on uhost-1 with cause "boom"
reports the start-verb message without the cause. -/
theorem c8_witness :
    (Stop exDriver (Except.error "boom")).2 =
      some "Cannot start Machine:m, with UHost: uhost-1." := by
  have h := c8_amended.2.1 exDriver "boom" (by decide)
  rw [h]
  rfl

end UCloud
